import Mathlib

/-
  Verification development for the Portfolio-v2 three.js portfolio site.

  Shallow embedding of the arithmetic and state-updating parts of the
  source modules (src/main.js, src/audio.js, src/cyberpunk.js,
  src/particles.js, src/sun.js).  Pure-rational modules are embedded over
  ℚ so that concrete instances can be settled by `decide`; the shader and
  trigonometric modules are embedded over ℝ.

  Model conventions:
  - JavaScript numbers are modelled as exact rationals / reals (no
    floating-point rounding).
  - Math.random() results are passed in explicitly as inputs (a stream
    ℕ → value, consumed in call order), making the functions
    deterministic in their inputs.
  - Mutation of an object is modelled by returning an updated record.
-/

set_option maxHeartbeats 1000000

namespace Portfolio

/-! ## Rational 3-vectors, used by the pure-arithmetic modules -/

@[ext]
structure Vec3Q where
  x : ℚ
  y : ℚ
  z : ℚ
deriving DecidableEq, Repr

/-- THREE.Vector3.lerpVectors(v1, v2, alpha): sets this = v1 + (v2 - v1) * alpha. -/
def lerpVectors (a b : Vec3Q) (t : ℚ) : Vec3Q :=
  ⟨a.x + (b.x - a.x) * t, a.y + (b.y - a.y) * t, a.z + (b.z - a.z) * t⟩

/-! ## main.js (first version): camera animation state machine -/

namespace Main

/-- main.js: function easeInOutCubic(t) - return t < 0.5 ? 4*t*t*t : 1 - Math.pow(-2*t+2, 3)/2. -/
def easeInOutCubic (t : ℚ) : ℚ :=
  if t < 1/2 then 4 * t * t * t else 1 - (-2 * t + 2) ^ 3 / 2

/-- main.js: const CAMERA_ANIM_DURATION = 1.2 (seconds). -/
def CAMERA_ANIM_DURATION : ℚ := 6/5

/-- main.js: const defaultCameraPos = new THREE.Vector3(0, 2, 18). -/
def defaultCameraPos : Vec3Q := ⟨0, 2, 18⟩

/-- main.js: const defaultLookAt = new THREE.Vector3(0, 0, 0). -/
def defaultLookAt : Vec3Q := ⟨0, 0, 0⟩

/-- The mutable camera-animation state of main.js: the module-level
variables cameraAnimating .. cameraAnimStartTime together with the
camera position and the OrbitControls target that the animation writes. -/
structure CameraState where
  cameraAnimating : Bool
  cameraStartPos : Vec3Q
  cameraTargetPos : Vec3Q
  cameraStartLookAt : Vec3Q
  cameraTargetLookAt : Vec3Q
  cameraAnimStartTime : ℚ
  cameraPosition : Vec3Q
  controlsTarget : Vec3Q
  controlsEnabled : Bool
deriving DecidableEq, Repr

/-- main.js: function animateCameraToDefault() - records the current
camera/controls state as the start, the default pose as the target, and
starts the animation clock (now = performance.now() / 1000). -/
def animateCameraToDefault (s : CameraState) (now : ℚ) : CameraState :=
  { s with
    cameraStartPos := s.cameraPosition
    cameraStartLookAt := s.controlsTarget
    cameraTargetPos := defaultCameraPos
    cameraTargetLookAt := defaultLookAt
    cameraAnimating := true
    cameraAnimStartTime := now }

/-- main.js: the custom-camera branch of animateCameraToOrb(orbWorldPos,
sectionId): when SECTION_CAMERAS[sectionId] exists, the recorded target is
the custom position/target pair and the animation clock starts. -/
def animateCameraToOrbCustom (s : CameraState) (customPos customTarget : Vec3Q)
    (now : ℚ) : CameraState :=
  { s with
    cameraStartPos := s.cameraPosition
    cameraStartLookAt := s.controlsTarget
    cameraTargetPos := customPos
    cameraTargetLookAt := customTarget
    cameraAnimating := true
    cameraAnimStartTime := now }

/-- main.js: function updateCameraAnimation() - per-frame easing step,
called with currentTime = performance.now() / 1000. -/
def updateCameraAnimation (s : CameraState) (currentTime : ℚ) : CameraState :=
  if !s.cameraAnimating then s
  else
    let elapsed := currentTime - s.cameraAnimStartTime
    let progress := min (elapsed / CAMERA_ANIM_DURATION) 1
    let easedProgress := easeInOutCubic progress
    let newPos := lerpVectors s.cameraStartPos s.cameraTargetPos easedProgress
    let currentLookAt := lerpVectors s.cameraStartLookAt s.cameraTargetLookAt easedProgress
    if 1 ≤ progress then
      { s with
        cameraPosition := newPos
        controlsTarget := currentLookAt
        cameraAnimating := false
        controlsEnabled := true }
    else
      { s with cameraPosition := newPos, controlsTarget := currentLookAt }

end Main

/-! ## audio.js: the 16-step sequencer inside AudioManager.startSoundtrack -/

namespace Audio

/-- audio.js: the melodic pattern array (note frequency, volume), 16 steps. -/
def pattern : List (ℚ × ℚ) :=
  [(220, 15/100), (0, 0), (330, 1/10), (0, 0),
   (220, 12/100), (440, 8/100), (0, 0), (330, 1/10),
   (220, 15/100), (0, 0), (275, 1/10), (0, 0),
   (220, 12/100), (0, 0), (550, 6/100), (330, 1/10)]

/-- audio.js: const kickPattern = [1,0,0,0, 1,0,0,0, 1,0,0,0, 1,0,1,0]. -/
def kickPattern : List ℕ := [1, 0, 0, 0, 1, 0, 0, 0, 1, 0, 0, 0, 1, 0, 1, 0]

/-- audio.js: const hihatPattern = [0,0,1,0, 0,0,1,0, 0,0,1,0, 0,0,1,1]. -/
def hihatPattern : List ℕ := [0, 0, 1, 0, 0, 0, 1, 0, 0, 0, 1, 0, 0, 0, 1, 1]

/-- audio.js: const bpm = 130; const stepTime = (60 / bpm) / 4 - the fixed
period (in seconds) of the setInterval sequencer callback. -/
def stepTime : ℚ := (60 / 130) / 4

/-- audio.js: the step counter as read by the n-th run of the sequencer
callback: let step = 0 initially, each callback ends with
step = (step + 1) % 16. -/
def stepSeq : ℕ → ℕ
  | 0 => 0
  | n + 1 => (stepSeq n + 1) % 16

/-- The data the n-th sequencer callback reads before playing: the
melodic pattern entry, kick flag and hi-hat flag at the current step. -/
def tickReads (n : ℕ) : Option (ℚ × ℚ) × Option ℕ × Option ℕ :=
  (pattern.get? (stepSeq n), kickPattern.get? (stepSeq n), hihatPattern.get? (stepSeq n))

end Audio

/-! ## cyberpunk.js: energy-pulse ring pool, orb highlighting -/

namespace Cyberpunk

/-- One pulse ring of the three-ring pool built by createCyberpunkCore:
its userData fields (active, startTime, duration, color) together with the
mesh state that triggerEnergyPulse / animateCyberpunkCore write (material
color, material opacity, scale). Colors are hex numbers. -/
structure PulseRing where
  active : Bool
  startTime : ℚ
  duration : ℚ
  userColor : ℕ
  matColor : ℕ
  opacity : ℚ
  scale : ℚ
deriving DecidableEq, Repr

/-- createCyberpunkCore: each of the 3 pooled rings starts with material
color 0x00ffff, opacity 0, userData { active: false, startTime: 0,
duration: 1.5, color: 0x00ffff } and scale 1. -/
def initialPulseRing : PulseRing :=
  { active := false, startTime := 0, duration := 3/2,
    userColor := 0x00ffff, matColor := 0x00ffff, opacity := 0, scale := 1 }

/-- createCyberpunkCore: the pool of 3 reusable pulse rings. -/
def initialPulseRings : List PulseRing :=
  [initialPulseRing, initialPulseRing, initialPulseRing]

/-- The mutation triggerEnergyPulse applies to the ring it finds:
userData.active = true, userData.startTime = time, userData.color = color,
material.color.setHex(color), scale.setScalar(1). -/
def activateRing (color : ℕ) (time : ℚ) (r : PulseRing) : PulseRing :=
  { r with active := true, startTime := time, userColor := color,
           matColor := color, scale := 1 }

/-- cyberpunk.js: function triggerEnergyPulse(core, color, time) - finds
the first ring with userData.active false (Array.prototype.find order) and
activates it; does nothing when every ring is active. -/
def triggerEnergyPulse : List PulseRing → ℕ → ℚ → List PulseRing
  | [], _, _ => []
  | r :: rs, color, time =>
    if r.active then r :: triggerEnergyPulse rs color time
    else activateRing color time r :: rs

/-- cyberpunk.js: the per-ring body of the pulse-ring loop in
animateCyberpunkCore(core, time): inactive rings are skipped; a ring whose
progress (time - startTime) / duration has reached 1 is reset to the pool
(active = false, opacity 0, scale 1); otherwise it keeps expanding with an
ease-out curve and fading out. -/
def animatePulseRing (time : ℚ) (r : PulseRing) : PulseRing :=
  if !r.active then r
  else
    let elapsed := time - r.startTime
    let progress := elapsed / r.duration
    if 1 ≤ progress then
      { r with active := false, opacity := 0, scale := 1 }
    else
      let eased := 1 - (1 - progress) ^ 3
      { r with scale := 1 + eased * 11, opacity := (1 - progress) * (8/10) }

/-- The userData scalar state of the core group that animateCyberpunkCore
and expandToOrb/collapseCore manipulate, together with the ring pool.
triggerEnergyPulse only touches the rings. -/
structure CoreState where
  currentScale : ℚ
  targetScale : ℚ
  isExpanded : Bool
  ringSpeedMultiplier : ℚ
  targetRingSpeed : ℚ
  rings : List PulseRing
deriving DecidableEq, Repr

/-- triggerEnergyPulse lifted to the whole core: only the pulseRings
child is read and written. -/
def triggerEnergyPulseCore (s : CoreState) (color : ℕ) (time : ℚ) : CoreState :=
  { s with rings := triggerEnergyPulse s.rings color time }

/-! ### Orb highlighting and the raycast hover state (main.js first version) -/

/-- The parts of a section orb group that highlightOrb(orb, highlight)
writes: the sphere material emissiveIntensity and the point-light
intensity (the orb groups of this version have no child named ring).
The id identifies the orb group. -/
structure Orb where
  id : ℕ
  sphereEmissive : ℚ
  lightIntensity : ℚ
deriving DecidableEq, Repr

/-- cyberpunk.js: function highlightOrb(orb, highlight) - sphere
emissiveIntensity becomes 1.3 (highlight) or 0.9 (unhighlight), point
light intensity becomes 1 or 0.5. -/
def highlightOrb (highlight : Bool) (o : Orb) : Orb :=
  { o with
    sphereEmissive := if highlight then 13/10 else 9/10,
    lightIntensity := if highlight then 1 else 1/2 }

end Cyberpunk

namespace Main

open Cyberpunk

/-- A node of a parent chain inside an orb group: its object id and
whether its userData carries a section. An intersected object is
represented by its ancestor chain (object, parent, grandparent, ...). -/
structure ChainNode where
  id : ℕ
  hasSection : Bool
deriving DecidableEq, Repr

/-- main.js: the while-loop of updateRaycast - walk target = target.parent
until an object with userData.section is found (none if the chain runs
out). -/
def resolveSectionAncestor (chain : List ChainNode) : Option ℕ :=
  (chain.find? (fun node => node.hasSection)).map (fun node => node.id)

/-- The hover state of main.js: the hoveredOrb variable together with the
orb groups whose materials highlightOrb mutates. -/
structure RayState where
  hoveredOrb : Option ℕ
  orbs : List Orb
deriving DecidableEq, Repr

/-- Apply highlightOrb to the orb group with the given id. -/
def setHighlight (id : ℕ) (highlight : Bool) (orbs : List Orb) : List Orb :=
  orbs.map (fun o => if o.id = id then highlightOrb highlight o else o)

/-- main.js: function updateRaycast() - intersects is the (distance
sorted) list of raycaster hits, each given by its ancestor chain. On a
hit, the section-bearing ancestor of the nearest hit becomes hoveredOrb
(unhighlighting the previous one); with no hits the hovered orb is
unhighlighted and hoveredOrb becomes null. -/
def updateRaycast (intersects : List (List ChainNode)) (s : RayState) : RayState :=
  match intersects with
  | chain :: _ =>
    let target := resolveSectionAncestor chain
    if target = s.hoveredOrb then s
    else
      let orbs1 := match s.hoveredOrb with
        | some h => setHighlight h false s.orbs
        | none => s.orbs
      let orbs2 := match target with
        | some t => setHighlight t true orbs1
        | none => orbs1
      { hoveredOrb := target, orbs := orbs2 }
  | [] =>
    match s.hoveredOrb with
    | some h => { hoveredOrb := none, orbs := setHighlight h false s.orbs }
    | none => s

/-- An orb is in the highlighted state exactly when its materials carry
the values written by highlightOrb(orb, true). -/
def Highlighted (o : Orb) : Prop :=
  o.sphereEmissive = 13/10 ∧ o.lightIntensity = 1

instance (o : Orb) : Decidable (Highlighted o) := by
  unfold Highlighted; infer_instance

/-- Hover invariant: an orb is highlighted iff it is the hovered one. -/
def HoverInv (s : RayState) : Prop :=
  ∀ o ∈ s.orbs, (Highlighted o ↔ s.hoveredOrb = some o.id)

instance (s : RayState) : Decidable (HoverInv s) := by
  unfold HoverInv; infer_instance

end Main

/-! ## Real 3-vectors, used by the trigonometric / shader modules -/

noncomputable section

@[ext]
structure Vec3R where
  x : ℝ
  y : ℝ
  z : ℝ

namespace Vec3R

def add (a b : Vec3R) : Vec3R := ⟨a.x + b.x, a.y + b.y, a.z + b.z⟩

def sub (a b : Vec3R) : Vec3R := ⟨a.x - b.x, a.y - b.y, a.z - b.z⟩

def cmul (a b : Vec3R) : Vec3R := ⟨a.x * b.x, a.y * b.y, a.z * b.z⟩

def smul (c : ℝ) (v : Vec3R) : Vec3R := ⟨c * v.x, c * v.y, c * v.z⟩

instance : Add Vec3R := ⟨add⟩

instance : Sub Vec3R := ⟨sub⟩

instance : Mul Vec3R := ⟨cmul⟩

instance : SMul ℝ Vec3R := ⟨smul⟩

/-- GLSL vector plus broadcast scalar. -/
def addC (v : Vec3R) (c : ℝ) : Vec3R := ⟨v.x + c, v.y + c, v.z + c⟩

def dot (a b : Vec3R) : ℝ := a.x * b.x + a.y * b.y + a.z * b.z

def length (v : Vec3R) : ℝ := Real.sqrt (dot v v)

/-- GLSL normalize(v) = v / length(v). -/
def normalize (v : Vec3R) : Vec3R := (1 / v.length) • v

def floorV (v : Vec3R) : Vec3R := ⟨(⌊v.x⌋ : ℤ), (⌊v.y⌋ : ℤ), (⌊v.z⌋ : ℤ)⟩

/-- GLSL fract(v) = v - floor(v). -/
def fractV (v : Vec3R) : Vec3R := v - floorV v

/-- GLSL step(edge, x): componentwise 0 if x < edge, else 1. -/
def stepV (edge v : Vec3R) : Vec3R :=
  ⟨if v.x < edge.x then 0 else 1, if v.y < edge.y then 0 else 1,
   if v.z < edge.z then 0 else 1⟩

def minV (a b : Vec3R) : Vec3R := ⟨min a.x b.x, min a.y b.y, min a.z b.z⟩

def maxV (a b : Vec3R) : Vec3R := ⟨max a.x b.x, max a.y b.y, max a.z b.z⟩

def sinV (v : Vec3R) : Vec3R := ⟨Real.sin v.x, Real.sin v.y, Real.sin v.z⟩

end Vec3R

/-! ## main.js (second version): smoothed camera / core-orbit animation -/

namespace MainV2

/-- THREE.Vector3.lerp(target, alpha) as used in animate():
camera.position.lerp(targetCameraPos, 0.025) sets this += (target - this) * alpha. -/
def lerp (p target : Vec3R) (alpha : ℝ) : Vec3R :=
  ⟨p.x + (target.x - p.x) * alpha,
   p.y + (target.y - p.y) * alpha,
   p.z + (target.z - p.z) * alpha⟩

/-- Euclidean distance between two points. -/
def dist (a b : Vec3R) : ℝ := (Vec3R.sub b a).length

/-- main.js (second version) animate(): the camera smoothing step
camera.position.lerp(targetCameraPos, 0.025). -/
def cameraSmoothStep (pos targetCameraPos : Vec3R) : Vec3R :=
  lerp pos targetCameraPos (25/1000)

/-- main.js (second version) animate(): the core-orbit smoothing step
core.rotation.y += (targetCoreRotation - core.rotation.y) * 0.02. -/
def coreRotationStep (rotY targetCoreRotation : ℝ) : ℝ :=
  rotY + (targetCoreRotation - rotY) * (2/100)

end MainV2

/-! ## particles.js: the two successive copies of the particle module -/

/-- The per-particle data record pushed onto userData.particleData by
createParticles, together with the mesh state (position, material
opacity, color index, geometry size) the module writes. -/
structure ParticleData where
  angle : ℝ
  radius : ℝ
  baseHeight : ℝ
  speed : ℝ
  verticalSpeed : ℝ
  verticalOffset : ℝ
  posX : ℝ
  posY : ℝ
  posZ : ℝ
  opacity : ℝ
  colorIdx : ℕ
  size : ℝ

namespace ParticlesV1

/-- particles.js (first copy), loop body of createParticles: the i-th
particle, with Math.random() results supplied by the stream rand in call
order (9 calls per particle: angle, radius, height, size, color, opacity,
speed, verticalSpeed, verticalOffset). -/
def mkParticle (rand : ℕ → ℝ) (i : ℕ) : ParticleData :=
  let angle := rand (9*i) * (Real.pi * 2)
  let radius := 5 + rand (9*i+1) * 7
  let height := (rand (9*i+2) - 1/2) * 10
  let size := 2/100 + rand (9*i+3) * (5/100)
  let colorIdx := (⌊rand (9*i+4) * 5⌋).toNat
  let opacity := 25/100 + rand (9*i+5) * (35/100)
  { angle := angle
    radius := radius
    baseHeight := height
    speed := 5/100 + rand (9*i+6) * (1/10)
    verticalSpeed := 2/10 + rand (9*i+7) * (3/10)
    verticalOffset := rand (9*i+8) * (Real.pi * 2)
    posX := Real.cos angle * radius
    posY := height
    posZ := Real.sin angle * radius
    opacity := opacity
    colorIdx := colorIdx
    size := size }

/-- particles.js (first copy): export function createParticles(count). -/
def createParticles (count : ℕ) (rand : ℕ → ℝ) : List ParticleData :=
  (List.range count).map (mkParticle rand)

/-- particles.js (first copy), forEach body of animateParticles. -/
def animateParticle (time : ℝ) (corePosition : Vec3R) (data : ParticleData) : ParticleData :=
  let angle := data.angle + data.speed * (1/100)
  let verticalOffset := Real.sin (time * data.verticalSpeed + data.verticalOffset) * (8/10)
  { data with
    angle := angle
    posX := corePosition.x + Real.cos angle * data.radius
    posZ := corePosition.z + Real.sin angle * data.radius
    posY := corePosition.y + data.baseHeight + verticalOffset
    opacity := 2/10 + Real.sin (time * (15/10) + angle) * (15/100) }

/-- particles.js (first copy): export function animateParticles. -/
def animateParticles (ps : List ParticleData) (time : ℝ) (corePosition : Vec3R) :
    List ParticleData :=
  ps.map (animateParticle time corePosition)

end ParticlesV1

namespace ParticlesV2

/-- particles.js (second copy, after the version separator), loop body of
createParticles: the i-th particle, Math.random() supplied by rand in
call order. -/
def mkParticle (rand : ℕ → ℝ) (i : ℕ) : ParticleData :=
  let angle := rand (9*i) * (Real.pi * 2)
  let radius := 5 + rand (9*i+1) * 7
  let height := (rand (9*i+2) - 1/2) * 10
  let size := 2/100 + rand (9*i+3) * (5/100)
  let colorIdx := (⌊rand (9*i+4) * 5⌋).toNat
  let opacity := 25/100 + rand (9*i+5) * (35/100)
  { angle := angle
    radius := radius
    baseHeight := height
    speed := 5/100 + rand (9*i+6) * (1/10)
    verticalSpeed := 2/10 + rand (9*i+7) * (3/10)
    verticalOffset := rand (9*i+8) * (Real.pi * 2)
    posX := Real.cos angle * radius
    posY := height
    posZ := Real.sin angle * radius
    opacity := opacity
    colorIdx := colorIdx
    size := size }

/-- particles.js (second copy): export function createParticles(count). -/
def createParticles (count : ℕ) (rand : ℕ → ℝ) : List ParticleData :=
  (List.range count).map (mkParticle rand)

/-- particles.js (second copy), forEach body of animateParticles. -/
def animateParticle (time : ℝ) (corePosition : Vec3R) (data : ParticleData) : ParticleData :=
  let angle := data.angle + data.speed * (1/100)
  let verticalOffset := Real.sin (time * data.verticalSpeed + data.verticalOffset) * (8/10)
  { data with
    angle := angle
    posX := corePosition.x + Real.cos angle * data.radius
    posZ := corePosition.z + Real.sin angle * data.radius
    posY := corePosition.y + data.baseHeight + verticalOffset
    opacity := 2/10 + Real.sin (time * (15/10) + angle) * (15/100) }

/-- particles.js (second copy): export function animateParticles. -/
def animateParticles (ps : List ParticleData) (time : ℝ) (corePosition : Vec3R) :
    List ParticleData :=
  ps.map (animateParticle time corePosition)

end ParticlesV2

/-! ## particles.js (first copy): energy flow particles -/

namespace EnergyFlow

/-- The flowData record of one energy particle, plus the mesh state the
module writes (position, opacity, scale, geometry size). -/
structure FlowParticle where
  orbIndex : ℕ
  progress : ℝ
  speed : ℝ
  curve : ℝ
  size : ℝ
  posX : ℝ
  posY : ℝ
  posZ : ℝ
  opacity : ℝ
  scale : ℝ

/-- particles.js: loop body of createEnergyFlow(orbPositions, count) for
index i; Math.random() supplied by rand in call order (4 calls: size,
progress, speed, curve). -/
def mkFlowParticle (orbCount : ℕ) (rand : ℕ → ℝ) (i : ℕ) : FlowParticle :=
  { orbIndex := i % orbCount
    progress := rand (4*i+1)
    speed := 3/10 + rand (4*i+2) * (4/10)
    curve := rand (4*i+3) * (5/10) + 3/10
    size := 4/100 + rand (4*i) * (6/100)
    posX := 0
    posY := 0
    posZ := 0
    opacity := 6/10
    scale := 1 }

/-- particles.js: export function createEnergyFlow(orbPositions, count). -/
def createEnergyFlow (orbCount : ℕ) (count : ℕ) (rand : ℕ → ℝ) : List FlowParticle :=
  (List.range count).map (mkFlowParticle orbCount rand)

/-- particles.js: forEach body of animateEnergyFlow for particle i with
this step's Math.random() value rand: advance progress by speed * 0.008,
loop back to the core on reaching 1 (retargeting the particle at the
focused orb, or a random orb when focusedOrbIndex < 0), then move the
mesh along the quadratic bezier path and update opacity and scale. -/
def updateFlowParticle (orbPositions : List Vec3R) (time : ℝ) (focusedOrbIndex : ℤ)
    (rand : ℝ) (i : ℕ) (data : FlowParticle) : FlowParticle :=
  let progress0 := data.progress + data.speed * (8/1000)
  let reset := 1 ≤ progress0
  let progress := if reset then 0 else progress0
  let orbIndex :=
    if reset then
      if 0 ≤ focusedOrbIndex then focusedOrbIndex.toNat
      else (⌊rand * (orbPositions.length : ℝ)⌋).toNat
    else data.orbIndex
  let targetIndex := orbIndex
  let targetPos := (orbPositions.get? targetIndex).getD ⟨6, 0, 0⟩
  let t := progress
  let easedT := if t < 1/2 then 2 * t * t else 1 - (-2 * t + 2) ^ 2 / 2
  let controlPointOffset := data.curve * 3
  let perpX := -targetPos.z
  let perpZ := targetPos.x
  let perpLen0 := Real.sqrt (perpX * perpX + perpZ * perpZ)
  let perpLen := if perpLen0 = 0 then 1 else perpLen0
  let normPerpX := (perpX / perpLen) * controlPointOffset
  let normPerpZ := (perpZ / perpLen) * controlPointOffset
  let oneMinusT := 1 - easedT
  let midX := normPerpX + targetPos.x * (1/2)
  let midY := data.curve * 2
  let midZ := normPerpZ + targetPos.z * (1/2)
  let x := oneMinusT * oneMinusT * 0 + 2 * oneMinusT * easedT * midX + easedT * easedT * targetPos.x
  let y := oneMinusT * oneMinusT * 0 + 2 * oneMinusT * easedT * midY + easedT * easedT * targetPos.y
  let z := oneMinusT * oneMinusT * 0 + 2 * oneMinusT * easedT * midZ + easedT * easedT * targetPos.z
  let opacityA : ℝ := 7/10
  let opacityB := if t < 1/10 then t * 7 else opacityA
  let opacityC := if 9/10 < t then (1 - t) * 7 else opacityB
  let pulse := 1 + Real.sin (time * 5 + i) * (2/10)
  { data with
    progress := progress
    orbIndex := orbIndex
    posX := x
    posY := y
    posZ := z
    opacity := opacityC
    scale := pulse }

/-- particles.js: export function animateEnergyFlow(energyFlow,
orbPositions, time, focusedOrbIndex); rand supplies the Math.random()
value available to particle i. -/
def animateEnergyFlow (flow : List FlowParticle) (orbPositions : List Vec3R)
    (time : ℝ) (focusedOrbIndex : ℤ) (rand : ℕ → ℝ) : List FlowParticle :=
  if orbPositions.length = 0 then flow
  else flow.mapIdx (fun i data =>
    updateFlowParticle orbPositions time focusedOrbIndex (rand i) i data)

end EnergyFlow

/-! ## sun.js: the sun fragment shader -/

@[ext]
structure Vec2R where
  x : ℝ
  y : ℝ

@[ext]
structure Vec4R where
  x : ℝ
  y : ℝ
  z : ℝ
  w : ℝ

namespace Vec4R

def add (a b : Vec4R) : Vec4R := ⟨a.x + b.x, a.y + b.y, a.z + b.z, a.w + b.w⟩

def sub (a b : Vec4R) : Vec4R := ⟨a.x - b.x, a.y - b.y, a.z - b.z, a.w - b.w⟩

def cmul (a b : Vec4R) : Vec4R := ⟨a.x * b.x, a.y * b.y, a.z * b.z, a.w * b.w⟩

def smul (c : ℝ) (v : Vec4R) : Vec4R := ⟨c * v.x, c * v.y, c * v.z, c * v.w⟩

def neg (v : Vec4R) : Vec4R := ⟨-v.x, -v.y, -v.z, -v.w⟩

instance : Add Vec4R := ⟨add⟩

instance : Sub Vec4R := ⟨sub⟩

instance : Mul Vec4R := ⟨cmul⟩

instance : SMul ℝ Vec4R := ⟨smul⟩

instance : Neg Vec4R := ⟨neg⟩

def const (c : ℝ) : Vec4R := ⟨c, c, c, c⟩

/-- GLSL vector plus broadcast scalar. -/
def addC (v : Vec4R) (c : ℝ) : Vec4R := ⟨v.x + c, v.y + c, v.z + c, v.w + c⟩

def dot (a b : Vec4R) : ℝ := a.x * b.x + a.y * b.y + a.z * b.z + a.w * b.w

def floorV (v : Vec4R) : Vec4R := ⟨(⌊v.x⌋ : ℤ), (⌊v.y⌋ : ℤ), (⌊v.z⌋ : ℤ), (⌊v.w⌋ : ℤ)⟩

def absV (v : Vec4R) : Vec4R := ⟨|v.x|, |v.y|, |v.z|, |v.w|⟩

/-- GLSL step(edge, x): componentwise 0 if x < edge, else 1. -/
def stepV (edge v : Vec4R) : Vec4R :=
  ⟨if v.x < edge.x then 0 else 1, if v.y < edge.y then 0 else 1,
   if v.z < edge.z then 0 else 1, if v.w < edge.w then 0 else 1⟩

def maxV (a b : Vec4R) : Vec4R := ⟨max a.x b.x, max a.y b.y, max a.z b.z, max a.w b.w⟩

end Vec4R

namespace Sun

open Vec3R Vec4R

/-- sun.js fragment shader: vec3 hash3(vec3 p). -/
def hash3 (p : Vec3R) : Vec3R :=
  let q : Vec3R :=
    ⟨Vec3R.dot p ⟨127.1, 311.7, 74.7⟩,
     Vec3R.dot p ⟨269.5, 183.3, 246.1⟩,
     Vec3R.dot p ⟨113.5, 271.9, 124.6⟩⟩
  fractV ((43758.5453123 : ℝ) • sinV q)

/-- sun.js fragment shader: float voronoi(vec3 p) - the nested
z/y/x loops over the 27 neighbouring cells, starting from minDist = 1.0. -/
def voronoi (p : Vec3R) : ℝ :=
  let b := floorV p
  let f := fractV p
  ([-1, 0, 1] : List ℝ).foldl (fun minDistZ zc =>
    ([-1, 0, 1] : List ℝ).foldl (fun minDistY yc =>
      ([-1, 0, 1] : List ℝ).foldl (fun minDist xc =>
        let offset : Vec3R := ⟨xc, yc, zc⟩
        let cellCenter := hash3 (b + offset)
        let diff := offset + cellCenter - f
        let dist := Vec3R.length diff
        min minDist dist) minDistY) minDistZ) 1

/-- The 27 neighbour-cell offsets of {-1, 0, 1}^3, enumerated in the loop
order of voronoi (z outermost, x innermost). -/
def voronoiOffsets : List Vec3R :=
  ([-1, 0, 1] : List ℝ).flatMap (fun zc =>
    ([-1, 0, 1] : List ℝ).flatMap (fun yc =>
      ([-1, 0, 1] : List ℝ).map (fun xc => (⟨xc, yc, zc⟩ : Vec3R))))

/-- The distance computed by one iteration of the voronoi loops: the
length of offset + hash3(floor(p) + offset) - fract(p). -/
def voronoiCandidate (p offset : Vec3R) : ℝ :=
  Vec3R.length (offset + hash3 (Vec3R.floorV p + offset) - Vec3R.fractV p)

/-- sun.js fragment shader: vec3 mod289(vec3 x). -/
def mod289v3 (v : Vec3R) : Vec3R := v - (289 : ℝ) • floorV ((1/289 : ℝ) • v)

/-- sun.js fragment shader: vec4 mod289(vec4 x). -/
def mod289v4 (v : Vec4R) : Vec4R := v - (289 : ℝ) • Vec4R.floorV ((1/289 : ℝ) • v)

/-- sun.js fragment shader: vec4 permute(vec4 x) = mod289(((x*34.0)+1.0)*x). -/
def permute (v : Vec4R) : Vec4R := mod289v4 ((((34 : ℝ) • v).addC 1) * v)

/-- sun.js fragment shader: vec4 taylorInvSqrt(vec4 r). -/
def taylorInvSqrt (r : Vec4R) : Vec4R :=
  Vec4R.const 1.79284291400159 - (0.85373472095314 : ℝ) • r

/-- sun.js fragment shader: float snoise(vec3 v) - 3D simplex noise. -/
def snoise (v : Vec3R) : ℝ :=
  let C : Vec2R := ⟨1/6, 1/3⟩
  let D : Vec4R := ⟨0, 1/2, 1, 2⟩
  let i0 := floorV (v.addC (Vec3R.dot v ⟨C.y, C.y, C.y⟩))
  let x0 := (v - i0).addC (Vec3R.dot i0 ⟨C.x, C.x, C.x⟩)
  let g := stepV ⟨x0.y, x0.z, x0.x⟩ ⟨x0.x, x0.y, x0.z⟩
  let l := (⟨1, 1, 1⟩ : Vec3R) - g
  let i1 := minV ⟨g.x, g.y, g.z⟩ ⟨l.z, l.x, l.y⟩
  let i2 := maxV ⟨g.x, g.y, g.z⟩ ⟨l.z, l.x, l.y⟩
  let x1 := (x0 - i1).addC C.x
  let x2 := (x0 - i2).addC C.y
  let x3 := x0 - ⟨D.y, D.y, D.y⟩
  let im := mod289v3 i0
  let p := permute ((permute ((permute ((⟨0, i1.z, i2.z, 1⟩ : Vec4R).addC im.z)
      + Vec4R.const im.y + ⟨0, i1.y, i2.y, 1⟩))
      + Vec4R.const im.x + ⟨0, i1.x, i2.x, 1⟩))
  let nScale : ℝ := 0.142857142857
  let ns : Vec3R := (nScale • (⟨D.w, D.y, D.z⟩ : Vec3R)) - ⟨D.x, D.z, D.x⟩
  let j := p - (49 : ℝ) • Vec4R.floorV (ns.z • (ns.z • p))
  let xF := Vec4R.floorV (ns.z • j)
  let yF := Vec4R.floorV (j - (7 : ℝ) • xF)
  let x := (ns.x • xF).addC ns.y
  let y := (ns.x • yF).addC ns.y
  let h := Vec4R.const 1 - absV x - absV y
  let b0 : Vec4R := ⟨x.x, x.y, y.x, y.y⟩
  let b1 : Vec4R := ⟨x.z, x.w, y.z, y.w⟩
  let s0 := ((2 : ℝ) • Vec4R.floorV b0).addC 1
  let s1 := ((2 : ℝ) • Vec4R.floorV b1).addC 1
  let sh := -(stepV h (Vec4R.const 0))
  let a0 := (⟨b0.x, b0.z, b0.y, b0.w⟩ : Vec4R) + (⟨s0.x, s0.z, s0.y, s0.w⟩ : Vec4R) * ⟨sh.x, sh.x, sh.y, sh.y⟩
  let a1 := (⟨b1.x, b1.z, b1.y, b1.w⟩ : Vec4R) + (⟨s1.x, s1.z, s1.y, s1.w⟩ : Vec4R) * ⟨sh.z, sh.z, sh.w, sh.w⟩
  let p0 : Vec3R := ⟨a0.x, a0.y, h.x⟩
  let p1 : Vec3R := ⟨a0.z, a0.w, h.y⟩
  let p2 : Vec3R := ⟨a1.x, a1.y, h.z⟩
  let p3 : Vec3R := ⟨a1.z, a1.w, h.w⟩
  let norm := taylorInvSqrt ⟨Vec3R.dot p0 p0, Vec3R.dot p1 p1, Vec3R.dot p2 p2, Vec3R.dot p3 p3⟩
  let q0 := norm.x • p0
  let q1 := norm.y • p1
  let q2 := norm.z • p2
  let q3 := norm.w • p3
  let m := Vec4R.maxV (Vec4R.const 0.6 - ⟨Vec3R.dot x0 x0, Vec3R.dot x1 x1, Vec3R.dot x2 x2, Vec3R.dot x3 x3⟩) (Vec4R.const 0)
  let m2 := m * m
  42 * Vec4R.dot (m2 * m2) ⟨Vec3R.dot q0 x0, Vec3R.dot q1 x1, Vec3R.dot q2 x2, Vec3R.dot q3 x3⟩

/-- GLSL smoothstep(edge0, edge1, x). -/
def smoothstep (edge0 edge1 xv : ℝ) : ℝ :=
  let t := min (max ((xv - edge0) / (edge1 - edge0)) 0) 1
  t * t * (3 - 2 * t)

/-- GLSL mix(x, y, a) on vec3 with scalar a: x * (1 - a) + y * a. -/
def mix3 (a b : Vec3R) (t : ℝ) : Vec3R :=
  ⟨a.x * (1 - t) + b.x * t, a.y * (1 - t) + b.y * t, a.z * (1 - t) + b.z * t⟩

/-- sun.js fragment shader: void main() - the gl_FragColor written for
varyings vPosition/vNormal and the declared uniforms time, colorCore,
colorMid, colorOuter (the three color uniforms never occur in the body). -/
def sunFragColor (vPosition vNormal : Vec3R) (time : ℝ)
    (colorCore colorMid colorOuter : Vec3R) : Vec4R :=
  let pos := Vec3R.normalize vPosition
  let t := time * 0.08
  let cells1 := voronoi (((8 : ℝ) • pos) + ⟨t * 0.2, t * 0.15, t * 0.1⟩)
  let cells2 := voronoi (((16 : ℝ) • pos) + ⟨-t * 0.3, t * 0.2, -t * 0.15⟩)
  let cells3 := voronoi (((32 : ℝ) • pos) + ⟨t * 0.4, -t * 0.3, t * 0.2⟩)
  let granulation0 := cells1 * 0.5 + cells2 * 0.35 + cells3 * 0.15
  let granulation1 := 1 - granulation0
  let granulation := granulation1 ^ (1.5 : ℝ)
  let turb1 := snoise (((3 : ℝ) • pos) + ⟨t * 0.5, t * 0.3, t * 0.2⟩)
  let turb2 := snoise (((6 : ℝ) • pos) + ⟨-t * 0.4, t * 0.6, -t * 0.3⟩)
  let turbulence0 := turb1 * 0.6 + turb2 * 0.4
  let turbulence := turbulence0 * 0.5 + 0.5
  let plasma0 := granulation * 0.7 + turbulence * 0.3
  let plasma1 := smoothstep 0.2 0.9 plasma0
  let hotspot0 := snoise (((12 : ℝ) • pos) + ⟨t * 0.8, -t * 0.6, t * 0.4⟩)
  let hotspot := smoothstep 0.6 1.0 hotspot0
  let plasma := max plasma1 (hotspot * 0.8)
  let darkRed : Vec3R := ⟨0.4, 0.05, 0.0⟩
  let deepOrange : Vec3R := ⟨0.8, 0.2, 0.0⟩
  let brightOrange : Vec3R := ⟨1.0, 0.5, 0.05⟩
  let yellow : Vec3R := ⟨1.0, 0.85, 0.3⟩
  let white : Vec3R := ⟨1.0, 1.0, 0.9⟩
  let color0 :=
    if plasma < 0.2 then mix3 darkRed deepOrange (plasma / 0.2)
    else if plasma < 0.45 then mix3 deepOrange brightOrange ((plasma - 0.2) / 0.25)
    else if plasma < 0.7 then mix3 brightOrange yellow ((plasma - 0.45) / 0.25)
    else mix3 yellow white ((plasma - 0.7) / 0.3)
  let color1 := (1.15 : ℝ) • color0
  let rim := 1 - (1 - |Vec3R.dot vNormal ⟨0.0, 0.0, 1.0⟩|) ^ (0.3 : ℝ)
  let color := (0.85 + rim * 0.15) • color1
  ⟨color.x, color.y, color.z, 1⟩

end Sun

end

/-! # Theorems -/

/-- Helper: the audio sequencer step counter is n mod 16. -/
theorem stepSeq_eq_mod (n : ℕ) : Audio.stepSeq n = n % 16 := by
  induction n with
  | zero => rfl
  | succ n ih => simp only [Audio.stepSeq, ih]; omega

/-- C9: in the sequencer started by AudioManager.startSoundtrack, the step
counter satisfies 0 ≤ step < 16 before every tick and advances by
step = (step + 1) % 16, so pattern[step], kickPattern[step] and
hihatPattern[step] always index inside the 16-entry arrays, and the
played sequence repeats with period 16. -/
theorem claim_c9_sequencer_steps_in_bounds :
    (∀ n, Audio.stepSeq n < 16) ∧
    (∀ n, Audio.stepSeq (n + 1) = (Audio.stepSeq n + 1) % 16) ∧
    Audio.pattern.length = 16 ∧
    Audio.kickPattern.length = 16 ∧
    Audio.hihatPattern.length = 16 ∧
    (∀ n, Audio.stepSeq n < Audio.pattern.length ∧
      Audio.stepSeq n < Audio.kickPattern.length ∧
      Audio.stepSeq n < Audio.hihatPattern.length) ∧
    (∀ n, Audio.tickReads (n + 16) = Audio.tickReads n) := by
  have hlt : ∀ n, Audio.stepSeq n < 16 := by
    intro n; rw [stepSeq_eq_mod]; omega
  have hpat : Audio.pattern.length = 16 := by decide
  have hkick : Audio.kickPattern.length = 16 := by decide
  have hhh : Audio.hihatPattern.length = 16 := by decide
  have hper : ∀ n, Audio.stepSeq (n + 16) = Audio.stepSeq n := by
    intro n; rw [stepSeq_eq_mod, stepSeq_eq_mod]; omega
  refine ⟨hlt, fun n => rfl, hpat, hkick, hhh, fun n => ?_, fun n => ?_⟩
  · exact ⟨hpat ▸ hlt n, hkick ▸ hlt n, hhh ▸ hlt n⟩
  · unfold Audio.tickReads
    rw [hper]

/-- C6: the two copies of the particle module in particles.js are
extensionally equivalent - for every random stream, particle count,
particle-data list, elapsed time and core position, the second copies of
createParticles and animateParticles produce the same particle data,
angles, positions and opacities as the first copies. -/
theorem claim_c6_particle_versions_equivalent :
    (∀ count rand, ParticlesV1.createParticles count rand =
      ParticlesV2.createParticles count rand) ∧
    (∀ ps time corePosition, ParticlesV1.animateParticles ps time corePosition =
      ParticlesV2.animateParticles ps time corePosition) :=
  ⟨fun _ _ => rfl, fun _ _ _ => rfl⟩

/-- C4: the sun fragment shader is pure - the color written to
gl_FragColor is fully determined by vPosition, vNormal and time
(hence also independent of the declared but unused uniforms colorCore,
colorMid, colorOuter), and its alpha component is always exactly 1.0. -/
theorem claim_c4_sun_shader_pure_and_opaque :
    (∀ vPosition vNormal time cCore cMid cOuter cCore2 cMid2 cOuter2,
      Sun.sunFragColor vPosition vNormal time cCore cMid cOuter =
        Sun.sunFragColor vPosition vNormal time cCore2 cMid2 cOuter2) ∧
    (∀ vPosition vNormal time cCore cMid cOuter,
      (Sun.sunFragColor vPosition vNormal time cCore cMid cOuter).w = 1) :=
  ⟨fun _ _ _ _ _ _ _ _ _ => rfl, fun _ _ _ _ _ _ => rfl⟩

/-- Helper: easeInOutCubic maps 1 to 1. -/
theorem easeInOutCubic_one : Main.easeInOutCubic 1 = 1 := by
  unfold Main.easeInOutCubic
  norm_num

/-- Helper: lerpVectors at interpolation parameter 1 lands on the target. -/
theorem lerpVectors_one (a b : Vec3Q) : lerpVectors a b 1 = b := by
  unfold lerpVectors
  ext <;> ring

/-- C1: while cameraAnimating (set by animateCameraToOrb or
animateCameraToDefault), each call to updateCameraAnimation sets the
camera position to lerpVectors(cameraStartPos, cameraTargetPos,
easeInOutCubic(min(elapsed / 1.2, 1))) and controls.target to the
corresponding interpolated look-at; as soon as elapsed ≥ 1.2 seconds the
camera position equals cameraTargetPos exactly (easeInOutCubic(1) = 1),
controls.target equals cameraTargetLookAt, and cameraAnimating becomes
false. -/
theorem claim_c1_update_camera_animation (s : Main.CameraState) (now : ℚ)
    (hAnim : s.cameraAnimating = true) :
    (Main.updateCameraAnimation s now).cameraPosition =
      lerpVectors s.cameraStartPos s.cameraTargetPos
        (Main.easeInOutCubic (min ((now - s.cameraAnimStartTime) / Main.CAMERA_ANIM_DURATION) 1)) ∧
    (Main.updateCameraAnimation s now).controlsTarget =
      lerpVectors s.cameraStartLookAt s.cameraTargetLookAt
        (Main.easeInOutCubic (min ((now - s.cameraAnimStartTime) / Main.CAMERA_ANIM_DURATION) 1)) ∧
    (Main.CAMERA_ANIM_DURATION ≤ now - s.cameraAnimStartTime →
      (Main.updateCameraAnimation s now).cameraPosition = s.cameraTargetPos ∧
      (Main.updateCameraAnimation s now).controlsTarget = s.cameraTargetLookAt ∧
      (Main.updateCameraAnimation s now).cameraAnimating = false) ∧
    (∀ t, (Main.animateCameraToDefault s t).cameraAnimating = true) ∧
    (∀ p q t, (Main.animateCameraToOrbCustom s p q t).cameraAnimating = true) := by
  have hdone : Main.CAMERA_ANIM_DURATION ≤ now - s.cameraAnimStartTime →
      min ((now - s.cameraAnimStartTime) / Main.CAMERA_ANIM_DURATION) 1 = 1 := by
    intro hd
    have hpos : (0 : ℚ) < Main.CAMERA_ANIM_DURATION := by norm_num [Main.CAMERA_ANIM_DURATION]
    exact min_eq_right ((one_le_div hpos).mpr hd)
  refine ⟨?_, ?_, fun hd => ?_, fun _ => rfl, fun _ _ _ => rfl⟩
  · unfold Main.updateCameraAnimation
    rw [hAnim]
    simp only [Bool.not_true, Bool.false_eq_true, if_false]
    split_ifs <;> rfl
  · unfold Main.updateCameraAnimation
    rw [hAnim]
    simp only [Bool.not_true, Bool.false_eq_true, if_false]
    split_ifs <;> rfl
  · unfold Main.updateCameraAnimation
    rw [hAnim]
    simp only [Bool.not_true, Bool.false_eq_true, if_false]
    rw [hdone hd, easeInOutCubic_one]
    simp only [le_refl, if_true]
    exact ⟨lerpVectors_one _ _, lerpVectors_one _ _, by trivial⟩

/-- Witness for C1: a concrete animating state observed 2 seconds after
the animation started has reached its target pose exactly and stopped
animating. -/
theorem claim_c1_update_camera_animation_witness :
    (Main.updateCameraAnimation
      { cameraAnimating := true
        cameraStartPos := ⟨0, 2, 18⟩
        cameraTargetPos := ⟨1, 2, 3⟩
        cameraStartLookAt := ⟨0, 0, 0⟩
        cameraTargetLookAt := ⟨4, 5, 6⟩
        cameraAnimStartTime := 0
        cameraPosition := ⟨0, 2, 18⟩
        controlsTarget := ⟨0, 0, 0⟩
        controlsEnabled := false } 2).cameraPosition = ⟨1, 2, 3⟩ ∧
    (Main.updateCameraAnimation
      { cameraAnimating := true
        cameraStartPos := ⟨0, 2, 18⟩
        cameraTargetPos := ⟨1, 2, 3⟩
        cameraStartLookAt := ⟨0, 0, 0⟩
        cameraTargetLookAt := ⟨4, 5, 6⟩
        cameraAnimStartTime := 0
        cameraPosition := ⟨0, 2, 18⟩
        controlsTarget := ⟨0, 0, 0⟩
        controlsEnabled := false } 2).cameraAnimating = false := by
  have h := (claim_c1_update_camera_animation
    { cameraAnimating := true
      cameraStartPos := ⟨0, 2, 18⟩
      cameraTargetPos := ⟨1, 2, 3⟩
      cameraStartLookAt := ⟨0, 0, 0⟩
      cameraTargetLookAt := ⟨4, 5, 6⟩
      cameraAnimStartTime := 0
      cameraPosition := ⟨0, 2, 18⟩
      controlsTarget := ⟨0, 0, 0⟩
      controlsEnabled := false } 2 rfl).2.2.1 (by norm_num [Main.CAMERA_ANIM_DURATION])
  exact ⟨h.1, h.2.2⟩

/-- Helper: one camera.position.lerp(target, 0.025) step scales the
distance to the target by exactly 0.975. -/
theorem cameraSmoothStep_dist (p t : Vec3R) :
    MainV2.dist (MainV2.cameraSmoothStep p t) t = (975/1000) * MainV2.dist p t := by
  unfold MainV2.dist MainV2.cameraSmoothStep MainV2.lerp Vec3R.sub Vec3R.length Vec3R.dot
  dsimp only
  have h1 :
      (t.x - (p.x + (t.x - p.x) * (25/1000))) * (t.x - (p.x + (t.x - p.x) * (25/1000))) +
        (t.y - (p.y + (t.y - p.y) * (25/1000))) * (t.y - (p.y + (t.y - p.y) * (25/1000))) +
        (t.z - (p.z + (t.z - p.z) * (25/1000))) * (t.z - (p.z + (t.z - p.z) * (25/1000))) =
      ((975:ℝ)/1000) ^ 2 *
        ((t.x - p.x) * (t.x - p.x) + (t.y - p.y) * (t.y - p.y) + (t.z - p.z) * (t.z - p.z)) := by
    ring
  rw [h1, Real.sqrt_mul (by positivity), Real.sqrt_sq (by norm_num)]

/-- Helper: one core-rotation smoothing step scales the difference to the
target rotation by exactly 0.98. -/
theorem coreRotationStep_dist (r t : ℝ) :
    |t - MainV2.coreRotationStep r t| = (98/100) * |t - r| := by
  unfold MainV2.coreRotationStep
  have h1 : t - (r + (t - r) * (2/100)) = (98/100) * (t - r) := by ring
  rw [h1, abs_mul, abs_of_nonneg (by norm_num : (0:ℝ) ≤ 98/100)]

/-- C5: one smoothing step of the second-version animate() loop with a
fixed target is a contraction: camera.position.lerp(targetCameraPos,
0.025) multiplies the distance to the target by exactly 0.975, and
core.rotation.y += (targetCoreRotation - core.rotation.y) * 0.02
multiplies the difference to the target rotation by exactly 0.98; hence
the distance to the target never increases and strictly decreases
whenever it is nonzero. -/
theorem claim_c5_lerp_smoothing_contracts :
    (∀ p t : Vec3R,
      MainV2.dist (MainV2.cameraSmoothStep p t) t = (975/1000) * MainV2.dist p t) ∧
    (∀ r t : ℝ, |t - MainV2.coreRotationStep r t| = (98/100) * |t - r|) ∧
    (∀ p t : Vec3R, MainV2.dist (MainV2.cameraSmoothStep p t) t ≤ MainV2.dist p t) ∧
    (∀ p t : Vec3R, MainV2.dist p t ≠ 0 →
      MainV2.dist (MainV2.cameraSmoothStep p t) t < MainV2.dist p t) ∧
    (∀ r t : ℝ, |t - MainV2.coreRotationStep r t| ≤ |t - r|) ∧
    (∀ r t : ℝ, |t - r| ≠ 0 → |t - MainV2.coreRotationStep r t| < |t - r|) := by
  have hnn : ∀ p t : Vec3R, 0 ≤ MainV2.dist p t := by
    intro p t
    exact Real.sqrt_nonneg _
  refine ⟨cameraSmoothStep_dist, coreRotationStep_dist, fun p t => ?_, fun p t hne => ?_,
    fun r t => ?_, fun r t hne => ?_⟩
  · rw [cameraSmoothStep_dist]
    nlinarith [hnn p t]
  · rw [cameraSmoothStep_dist]
    have hpos : 0 < MainV2.dist p t := lt_of_le_of_ne (hnn p t) (Ne.symm hne)
    nlinarith
  · rw [coreRotationStep_dist]
    nlinarith [abs_nonneg (t - r)]
  · rw [coreRotationStep_dist]
    have hpos : 0 < |t - r| := lt_of_le_of_ne (abs_nonneg _) (Ne.symm hne)
    nlinarith

/-- Witness for C5: starting one unit away from the target, a camera
smoothing step and a rotation smoothing step each strictly decrease the
distance to the target. -/
theorem claim_c5_lerp_smoothing_contracts_witness :
    MainV2.dist ⟨0, 0, 0⟩ ⟨1, 0, 0⟩ ≠ 0 ∧
    MainV2.dist (MainV2.cameraSmoothStep ⟨0, 0, 0⟩ ⟨1, 0, 0⟩) ⟨1, 0, 0⟩ <
      MainV2.dist ⟨0, 0, 0⟩ ⟨1, 0, 0⟩ ∧
    |(1:ℝ) - 0| ≠ 0 ∧
    |(1:ℝ) - MainV2.coreRotationStep 0 1| < |(1:ℝ) - 0| := by
  have hd : MainV2.dist ⟨0, 0, 0⟩ ⟨1, 0, 0⟩ ≠ 0 := by
    unfold MainV2.dist Vec3R.sub Vec3R.length Vec3R.dot
    norm_num
  have hr : |(1:ℝ) - 0| ≠ 0 := by norm_num
  exact ⟨hd, claim_c5_lerp_smoothing_contracts.2.2.2.1 _ _ hd, hr,
    claim_c5_lerp_smoothing_contracts.2.2.2.2.2 _ _ hr⟩

/-- Helper: when every pooled ring is active, triggerEnergyPulse finds no
available ring and leaves the pool unchanged. -/
theorem triggerEnergyPulse_all_active (rings : List Cyberpunk.PulseRing) (color : ℕ)
    (time : ℚ) (h : ∀ r ∈ rings, r.active = true) :
    Cyberpunk.triggerEnergyPulse rings color time = rings := by
  induction rings with
  | nil => rfl
  | cons r rs ih =>
    have hr : r.active = true := h r (List.mem_cons_self r rs)
    have hrs := ih (fun q hq => h q (List.mem_cons_of_mem r hq))
    simp [Cyberpunk.triggerEnergyPulse, hr, hrs]

/-- Helper: triggerEnergyPulse either changes nothing (every ring already
active) or activates exactly the first inactive ring, leaving every other
ring untouched. -/
theorem triggerEnergyPulse_spec (rings : List Cyberpunk.PulseRing) (color : ℕ) (time : ℚ) :
    (Cyberpunk.triggerEnergyPulse rings color time = rings ∧ ∀ r ∈ rings, r.active = true) ∨
    (∃ pre r post, rings = pre ++ r :: post ∧ (∀ q ∈ pre, q.active = true) ∧
      r.active = false ∧
      Cyberpunk.triggerEnergyPulse rings color time =
        pre ++ Cyberpunk.activateRing color time r :: post) := by
  induction rings with
  | nil => exact Or.inl ⟨rfl, by simp⟩
  | cons r rs ih =>
    by_cases hr : r.active = true
    · rcases ih with ⟨heq, hall⟩ | ⟨pre, q, post, hsplit, hpre, hq, heq⟩
      · refine Or.inl ⟨by simp [Cyberpunk.triggerEnergyPulse, hr, heq], ?_⟩
        intro q hq
        rcases List.mem_cons.1 hq with hq | hq
        · exact hq ▸ hr
        · exact hall q hq
      · refine Or.inr ⟨r :: pre, q, post, by simp [hsplit], ?_, hq, ?_⟩
        · intro q' hq'
          rcases List.mem_cons.1 hq' with hq' | hq'
          · exact hq' ▸ hr
          · exact hpre q' hq'
        · simp [Cyberpunk.triggerEnergyPulse, hr, heq]
    · have hr' : r.active = false := by
        cases hb : r.active
        · rfl
        · exact absurd hb hr
      exact Or.inr ⟨[], r, rs, rfl, by simp, hr', by simp [Cyberpunk.triggerEnergyPulse, hr']⟩

/-- Helper: an active ring whose progress has reached 1 is returned to the
pool by the pulse-ring loop of animateCyberpunkCore. -/
theorem animatePulseRing_expires (r : Cyberpunk.PulseRing) (time : ℚ)
    (hact : r.active = true) (hprog : 1 ≤ (time - r.startTime) / r.duration) :
    (Cyberpunk.animatePulseRing time r).active = false ∧
    (Cyberpunk.animatePulseRing time r).opacity = 0 ∧
    (Cyberpunk.animatePulseRing time r).scale = 1 := by
  simp [Cyberpunk.animatePulseRing, hact, hprog]

/-- C8: triggerEnergyPulse activates at most one pulse ring per call, and
only a ring whose active flag is false (the first such ring): it sets
that ring's active flag, start time, colors and scale and leaves every
other ring untouched; when every ring of the three-ring pool is already
active it leaves the whole core state (rings included) unchanged. -/
theorem claim_c8_trigger_energy_pulse_pool :
    (∀ (s : Cyberpunk.CoreState) color time, (∀ r ∈ s.rings, r.active = true) →
      Cyberpunk.triggerEnergyPulseCore s color time = s) ∧
    (∀ rings color time,
      (Cyberpunk.triggerEnergyPulse rings color time = rings ∧
        ∀ r ∈ rings, r.active = true) ∨
      (∃ pre r post, rings = pre ++ r :: post ∧ (∀ q ∈ pre, q.active = true) ∧
        r.active = false ∧
        Cyberpunk.triggerEnergyPulse rings color time =
          pre ++ Cyberpunk.activateRing color time r :: post)) := by
  constructor
  · intro s color time h
    unfold Cyberpunk.triggerEnergyPulseCore
    rw [triggerEnergyPulse_all_active s.rings color time h]
  · intro rings color time
    rcases triggerEnergyPulse_spec rings color time with h | h
    · exact Or.inl h
    · exact Or.inr h

/-- Witness for C8: with all three pooled rings active, a pulse request is
silently dropped, the core state left unchanged. -/
theorem claim_c8_trigger_energy_pulse_pool_witness :
    (∀ r ∈ ({ currentScale := 1, targetScale := 3, isExpanded := true,
              ringSpeedMultiplier := 1, targetRingSpeed := 5,
              rings := [{ active := true, startTime := 1, duration := 3/2,
                          userColor := 5, matColor := 5, opacity := 1/2, scale := 2 },
                        { active := true, startTime := 2, duration := 3/2,
                          userColor := 6, matColor := 6, opacity := 1/4, scale := 3 },
                        { active := true, startTime := 3, duration := 3/2,
                          userColor := 7, matColor := 7, opacity := 1/8, scale := 4 }] } :
        Cyberpunk.CoreState).rings, r.active = true) ∧
    Cyberpunk.triggerEnergyPulseCore
      { currentScale := 1, targetScale := 3, isExpanded := true,
        ringSpeedMultiplier := 1, targetRingSpeed := 5,
        rings := [{ active := true, startTime := 1, duration := 3/2,
                    userColor := 5, matColor := 5, opacity := 1/2, scale := 2 },
                  { active := true, startTime := 2, duration := 3/2,
                    userColor := 6, matColor := 6, opacity := 1/4, scale := 3 },
                  { active := true, startTime := 3, duration := 3/2,
                    userColor := 7, matColor := 7, opacity := 1/8, scale := 4 }] } 255 9 =
      { currentScale := 1, targetScale := 3, isExpanded := true,
        ringSpeedMultiplier := 1, targetRingSpeed := 5,
        rings := [{ active := true, startTime := 1, duration := 3/2,
                    userColor := 5, matColor := 5, opacity := 1/2, scale := 2 },
                  { active := true, startTime := 2, duration := 3/2,
                    userColor := 6, matColor := 6, opacity := 1/4, scale := 3 },
                  { active := true, startTime := 3, duration := 3/2,
                    userColor := 7, matColor := 7, opacity := 1/8, scale := 4 }] } :=
  ⟨by decide, claim_c8_trigger_energy_pulse_pool.1 _ 255 9 (by decide)⟩

/-- C2, counterexample: the cited code does manage a reusable pool of
resources. A concrete trace of the three-ring pulse pool: triggerEnergyPulse
activates pool slot 0, the pulse-ring loop of animateCyberpunkCore returns
the expired ring to the pool (restoring the initial ring state), and a
later triggerEnergyPulse call activates the same slot again - the slot is
reused. This falsifies the claim that no operation manages a reusable
pool of resources. -/
theorem claim_c2_counterexample_pool_reuse :
    (Cyberpunk.triggerEnergyPulse Cyberpunk.initialPulseRings 0x00ffff 0).head? =
      some { active := true, startTime := 0, duration := 3/2, userColor := 0x00ffff,
             matColor := 0x00ffff, opacity := 0, scale := 1 } ∧
    ((Cyberpunk.triggerEnergyPulse Cyberpunk.initialPulseRings 0x00ffff 0).map
        (Cyberpunk.animatePulseRing 2)).head? = some Cyberpunk.initialPulseRing ∧
    (Cyberpunk.triggerEnergyPulse
        ((Cyberpunk.triggerEnergyPulse Cyberpunk.initialPulseRings 0x00ffff 0).map
          (Cyberpunk.animatePulseRing 2)) 0xff6600 3).head? =
      some { active := true, startTime := 3, duration := 3/2, userColor := 0xff6600,
             matColor := 0xff6600, opacity := 0, scale := 1 } := by
  have h1 : Cyberpunk.triggerEnergyPulse Cyberpunk.initialPulseRings 0x00ffff 0 =
      [{ active := true, startTime := 0, duration := 3/2, userColor := 0x00ffff,
         matColor := 0x00ffff, opacity := 0, scale := 1 },
       Cyberpunk.initialPulseRing, Cyberpunk.initialPulseRing] := by
    simp [Cyberpunk.triggerEnergyPulse, Cyberpunk.initialPulseRings,
      Cyberpunk.initialPulseRing, Cyberpunk.activateRing]
  have h2 : (Cyberpunk.triggerEnergyPulse Cyberpunk.initialPulseRings 0x00ffff 0).map
      (Cyberpunk.animatePulseRing 2) = Cyberpunk.initialPulseRings := by
    rw [h1]
    simp only [List.map_cons, List.map_nil]
    norm_num [Cyberpunk.animatePulseRing, Cyberpunk.initialPulseRing,
      Cyberpunk.initialPulseRings]
  have h3 : Cyberpunk.triggerEnergyPulse Cyberpunk.initialPulseRings 0xff6600 3 =
      [{ active := true, startTime := 3, duration := 3/2, userColor := 0xff6600,
         matColor := 0xff6600, opacity := 0, scale := 1 },
       Cyberpunk.initialPulseRing, Cyberpunk.initialPulseRing] := by
    simp [Cyberpunk.triggerEnergyPulse, Cyberpunk.initialPulseRings,
      Cyberpunk.initialPulseRing, Cyberpunk.activateRing]
  refine ⟨by rw [h1]; rfl, by rw [h2]; rfl, by rw [h2, h3]; rfl⟩

/-- C2, amended: the program contains no protocol, cache, or concurrency
coordination logic, but it does schedule timed steps (the audio sequencer
runs on a fixed setInterval period stepTime = (60/130)/4 seconds,
advancing step = (step + 1) % 16 each tick) and does manage a reusable
pool of resources (the three-ring pulse pool: triggerEnergyPulse draws
the first inactive ring from the pool, a pulse request with every ring
busy is dropped, and the pulse-ring loop of animateCyberpunkCore returns
expired rings to the pool). -/
theorem claim_c2_amended_scheduler_and_pool :
    Audio.stepTime = 3/26 ∧
    (∀ n, Audio.stepSeq (n + 1) = (Audio.stepSeq n + 1) % 16) ∧
    (∀ rings color time, (∀ r ∈ rings, r.active = true) →
      Cyberpunk.triggerEnergyPulse rings color time = rings) ∧
    (∀ rings color time,
      (Cyberpunk.triggerEnergyPulse rings color time = rings ∧
        ∀ r ∈ rings, r.active = true) ∨
      (∃ pre r post, rings = pre ++ r :: post ∧ (∀ q ∈ pre, q.active = true) ∧
        r.active = false ∧
        Cyberpunk.triggerEnergyPulse rings color time =
          pre ++ Cyberpunk.activateRing color time r :: post)) ∧
    (∀ (r : Cyberpunk.PulseRing) time, r.active = true →
      1 ≤ (time - r.startTime) / r.duration →
      (Cyberpunk.animatePulseRing time r).active = false) := by
  refine ⟨by norm_num [Audio.stepTime], fun n => rfl, triggerEnergyPulse_all_active, ?_, ?_⟩
  · exact triggerEnergyPulse_spec
  · intro r time hact hprog
    exact (animatePulseRing_expires r time hact hprog).1

/-- Witness for C2 (amended): the hypothesis-bearing parts instantiated -
a fully active pool drops the request, and an expired active ring is
deactivated. -/
theorem claim_c2_amended_scheduler_and_pool_witness :
    (∀ r ∈ [Cyberpunk.activateRing 255 0 Cyberpunk.initialPulseRing], r.active = true) ∧
    Cyberpunk.triggerEnergyPulse [Cyberpunk.activateRing 255 0 Cyberpunk.initialPulseRing] 7 4 =
      [Cyberpunk.activateRing 255 0 Cyberpunk.initialPulseRing] ∧
    (Cyberpunk.activateRing 255 0 Cyberpunk.initialPulseRing).active = true ∧
    (1 : ℚ) ≤ (2 - (Cyberpunk.activateRing 255 0 Cyberpunk.initialPulseRing).startTime) /
      (Cyberpunk.activateRing 255 0 Cyberpunk.initialPulseRing).duration ∧
    (Cyberpunk.animatePulseRing 2 (Cyberpunk.activateRing 255 0 Cyberpunk.initialPulseRing)).active
      = false := by
  have hprog : (1 : ℚ) ≤
      (2 - (Cyberpunk.activateRing 255 0 Cyberpunk.initialPulseRing).startTime) /
        (Cyberpunk.activateRing 255 0 Cyberpunk.initialPulseRing).duration := by
    norm_num [Cyberpunk.activateRing, Cyberpunk.initialPulseRing]
  exact ⟨by decide, claim_c2_amended_scheduler_and_pool.2.2.1 _ 7 4 (by decide), rfl, hprog,
    claim_c2_amended_scheduler_and_pool.2.2.2.2 _ 2 rfl hprog⟩

/-- Helper: a left fold of min never rises above its initial value. -/
theorem foldl_min_le_init (l : List ℝ) (a : ℝ) : l.foldl min a ≤ a := by
  induction l generalizing a with
  | nil => exact le_refl a
  | cons x xs ih => exact le_trans (ih (min a x)) (min_le_left a x)

/-- Helper: a left fold of min stays above any common lower bound. -/
theorem le_foldl_min (l : List ℝ) (a c : ℝ) (ha : c ≤ a) (h : ∀ x ∈ l, c ≤ x) :
    c ≤ l.foldl min a := by
  induction l generalizing a with
  | nil => exact ha
  | cons x xs ih =>
    exact ih (min a x) (le_min ha (h x (List.mem_cons_self x xs)))
      (fun y hy => h y (List.mem_cons_of_mem x hy))

/-- C3: for every input point p, the sun shader voronoi function returns
the minimum of 1.0 and the 27 candidate distances
length(offset + hash3(floor(p) + offset) - fract(p)) over all 27 offsets
with coordinates in -1, 0, 1; in particular 0 ≤ voronoi(p) ≤ 1 for
every p. -/
theorem claim_c3_voronoi_min_of_27 (p : Vec3R) :
    Sun.voronoi p = (Sun.voronoiOffsets.map (Sun.voronoiCandidate p)).foldl min 1 ∧
    0 ≤ Sun.voronoi p ∧ Sun.voronoi p ≤ 1 := by
  have heq : Sun.voronoi p = (Sun.voronoiOffsets.map (Sun.voronoiCandidate p)).foldl min 1 := by
    rfl
  refine ⟨heq, ?_, ?_⟩
  · rw [heq]
    refine le_foldl_min _ 1 0 (by norm_num) ?_
    intro x hx
    obtain ⟨o, _, rfl⟩ := List.mem_map.1 hx
    exact Real.sqrt_nonneg _
  · rw [heq]
    exact foldl_min_le_init _ 1

/-- Witness for C3 (hypothesis-free ∀ instance at a concrete point): the
claim instantiated at the origin. -/
theorem claim_c3_voronoi_min_of_27_witness :
    0 ≤ Sun.voronoi ⟨0, 0, 0⟩ ∧ Sun.voronoi ⟨0, 0, 0⟩ ≤ 1 :=
  ⟨(claim_c3_voronoi_min_of_27 ⟨0, 0, 0⟩).2.1, (claim_c3_voronoi_min_of_27 ⟨0, 0, 0⟩).2.2⟩

/-- Helper: highlightOrb with highlight = true puts an orb into the
highlighted state. -/
theorem highlightOrb_true_highlighted (o : Cyberpunk.Orb) :
    Main.Highlighted (Cyberpunk.highlightOrb true o) := by
  simp [Main.Highlighted, Cyberpunk.highlightOrb]

/-- Helper: highlightOrb with highlight = false leaves an orb
unhighlighted. -/
theorem highlightOrb_false_not_highlighted (o : Cyberpunk.Orb) :
    ¬ Main.Highlighted (Cyberpunk.highlightOrb false o) := by
  norm_num [Main.Highlighted, Cyberpunk.highlightOrb]

/-- Helper: after unhighlighting the hovered orb, no orb of a state
satisfying the hover invariant is highlighted. -/
theorem not_highlighted_after_clear (orbs : List Cyberpunk.Orb) (h : Option ℕ)
    (hInv : ∀ o ∈ orbs, Main.Highlighted o ↔ h = some o.id) :
    ∀ o ∈ (match h with
           | some hh => Main.setHighlight hh false orbs
           | none => orbs), ¬ Main.Highlighted o := by
  cases h with
  | none =>
    intro o ho hH
    exact Option.noConfusion ((hInv o ho).mp hH)
  | some hh =>
    intro o ho
    simp only [Main.setHighlight, List.mem_map] at ho
    obtain ⟨o0, ho0, rfl⟩ := ho
    by_cases hid : o0.id = hh
    · rw [if_pos hid]
      exact highlightOrb_false_not_highlighted o0
    · rw [if_neg hid]
      intro hH
      exact hid (Option.some.inj ((hInv o0 ho0).mp hH)).symm

/-- Helper: highlighting one orb of an all-unhighlighted list makes
exactly the orbs bearing its id highlighted. -/
theorem hoverInv_after_highlight (orbs : List Cyberpunk.Orb) (tt : ℕ)
    (hclear : ∀ o ∈ orbs, ¬ Main.Highlighted o) :
    ∀ o ∈ Main.setHighlight tt true orbs,
      (Main.Highlighted o ↔ (some tt : Option ℕ) = some o.id) := by
  intro o ho
  simp only [Main.setHighlight, List.mem_map] at ho
  obtain ⟨o0, ho0, rfl⟩ := ho
  by_cases hid : o0.id = tt
  · rw [if_pos hid]
    have hid2 : (Cyberpunk.highlightOrb true o0).id = tt := hid
    simp [hid2, highlightOrb_true_highlighted o0]
  · rw [if_neg hid]
    constructor
    · intro hH
      exact absurd hH (hclear o0 ho0)
    · intro h2
      exact absurd (Option.some.inj h2).symm hid

/-- C7: updateRaycast keeps at most one orb hovered - starting from a
state satisfying the hover invariant, after the call the invariant still
holds; when the ray hits an orb, hoveredOrb is the section-bearing
ancestor of the first (nearest) intersection (and by the invariant only
that orb is highlighted); with no hit, hoveredOrb is null and the
previously hovered orb has been unhighlighted. -/
theorem claim_c7_raycast_at_most_one_hover (s : Main.RayState)
    (intersects : List (List Main.ChainNode)) (hInv : Main.HoverInv s) :
    Main.HoverInv (Main.updateRaycast intersects s) ∧
    (∀ chain rest, intersects = chain :: rest →
      (Main.updateRaycast intersects s).hoveredOrb = Main.resolveSectionAncestor chain) ∧
    (intersects = [] →
      (Main.updateRaycast intersects s).hoveredOrb = none ∧
      ∀ o ∈ (Main.updateRaycast intersects s).orbs, ¬ Main.Highlighted o) := by
  cases intersects with
  | nil =>
    cases hh : s.hoveredOrb with
    | none =>
      have hupd : Main.updateRaycast [] s = s := by
        simp [Main.updateRaycast, hh]
      have hnoHL : ∀ o ∈ s.orbs, ¬ Main.Highlighted o := by
        intro o ho hH
        have h2 := (hInv o ho).mp hH
        rw [hh] at h2
        exact Option.noConfusion h2
      refine ⟨?_, ?_, ?_⟩
      · rw [hupd]
        exact hInv
      · intro chain rest hc
        exact List.noConfusion hc
      · intro _
        rw [hupd]
        exact ⟨hh, hnoHL⟩
    | some h0 =>
      have hInv2 : ∀ o ∈ s.orbs, Main.Highlighted o ↔ (some h0 : Option ℕ) = some o.id := by
        intro o ho
        rw [← hh]
        exact hInv o ho
      have hclear : ∀ o ∈ Main.setHighlight h0 false s.orbs, ¬ Main.Highlighted o :=
        not_highlighted_after_clear s.orbs (some h0) hInv2
      have hupd : Main.updateRaycast [] s =
          { hoveredOrb := none, orbs := Main.setHighlight h0 false s.orbs } := by
        simp [Main.updateRaycast, hh]
      refine ⟨?_, ?_, ?_⟩
      · rw [hupd]
        intro o ho
        exact iff_of_false (hclear o ho) (fun habs => Option.noConfusion habs)
      · intro chain rest hc
        exact List.noConfusion hc
      · intro _
        rw [hupd]
        exact ⟨rfl, hclear⟩
  | cons chain rest =>
    by_cases ht : Main.resolveSectionAncestor chain = s.hoveredOrb
    · have hupd : Main.updateRaycast (chain :: rest) s = s := by
        simp [Main.updateRaycast, ht]
      refine ⟨?_, ?_, ?_⟩
      · rw [hupd]
        exact hInv
      · intro chain2 rest2 hc
        injection hc with h1 h2
        subst h1
        rw [hupd, ht]
      · intro hc
        exact List.noConfusion hc
    · cases htv : Main.resolveSectionAncestor chain with
      | none =>
        rw [htv] at ht
        cases hh : s.hoveredOrb with
        | none => exact absurd hh.symm ht
        | some h0 =>
          have hInv2 : ∀ o ∈ s.orbs, Main.Highlighted o ↔ (some h0 : Option ℕ) = some o.id := by
            intro o ho
            rw [← hh]
            exact hInv o ho
          have hclear : ∀ o ∈ Main.setHighlight h0 false s.orbs, ¬ Main.Highlighted o :=
            not_highlighted_after_clear s.orbs (some h0) hInv2
          have hupd : Main.updateRaycast (chain :: rest) s =
              { hoveredOrb := none, orbs := Main.setHighlight h0 false s.orbs } := by
            rw [hh] at ht
            simp [Main.updateRaycast, htv, ht, hh]
          refine ⟨?_, ?_, ?_⟩
          · rw [hupd]
            intro o ho
            exact iff_of_false (hclear o ho) (fun habs => Option.noConfusion habs)
          · intro chain2 rest2 hc
            injection hc with h1 h2
            subst h1
            rw [hupd, htv]
          · intro hc
            exact List.noConfusion hc
      | some tt =>
        rw [htv] at ht
        cases hh : s.hoveredOrb with
        | none =>
          have hclear : ∀ o ∈ s.orbs, ¬ Main.Highlighted o := by
            intro o ho hH
            have h2 := (hInv o ho).mp hH
            rw [hh] at h2
            exact Option.noConfusion h2
          have hupd : Main.updateRaycast (chain :: rest) s =
              { hoveredOrb := some tt, orbs := Main.setHighlight tt true s.orbs } := by
            rw [hh] at ht
            simp [Main.updateRaycast, htv, ht, hh]
          refine ⟨?_, ?_, ?_⟩
          · rw [hupd]
            exact hoverInv_after_highlight s.orbs tt hclear
          · intro chain2 rest2 hc
            injection hc with h1 h2
            subst h1
            rw [hupd, htv]
          · intro hc
            exact List.noConfusion hc
        | some h0 =>
          have hInv2 : ∀ o ∈ s.orbs, Main.Highlighted o ↔ (some h0 : Option ℕ) = some o.id := by
            intro o ho
            rw [← hh]
            exact hInv o ho
          have hclear : ∀ o ∈ Main.setHighlight h0 false s.orbs, ¬ Main.Highlighted o :=
            not_highlighted_after_clear s.orbs (some h0) hInv2
          have hupd : Main.updateRaycast (chain :: rest) s =
              { hoveredOrb := some tt,
                orbs := Main.setHighlight tt true (Main.setHighlight h0 false s.orbs) } := by
            rw [hh] at ht
            simp [Main.updateRaycast, htv, ht, hh]
          refine ⟨?_, ?_, ?_⟩
          · rw [hupd]
            exact hoverInv_after_highlight _ tt hclear
          · intro chain2 rest2 hc
            injection hc with h1 h2
            subst h1
            rw [hupd, htv]
          · intro hc
            exact List.noConfusion hc

/-- Witness for C7: from an unhighlighted two-orb state with nothing
hovered, a hit whose chain resolves to orb 0 makes orb 0 hovered and the
invariant still holds. -/
theorem claim_c7_raycast_at_most_one_hover_witness :
    Main.HoverInv ⟨none, [⟨0, 9/10, 1/2⟩, ⟨1, 9/10, 1/2⟩]⟩ ∧
    (Main.updateRaycast [[⟨5, false⟩, ⟨0, true⟩]]
      ⟨none, [⟨0, 9/10, 1/2⟩, ⟨1, 9/10, 1/2⟩]⟩).hoveredOrb = some 0 ∧
    Main.HoverInv (Main.updateRaycast [[⟨5, false⟩, ⟨0, true⟩]]
      ⟨none, [⟨0, 9/10, 1/2⟩, ⟨1, 9/10, 1/2⟩]⟩) := by
  have hInv : Main.HoverInv ⟨none, [⟨0, 9/10, 1/2⟩, ⟨1, 9/10, 1/2⟩]⟩ := by
    intro o ho
    simp only [List.mem_cons, List.not_mem_nil, or_false] at ho
    rcases ho with rfl | rfl <;>
      exact iff_of_false (by norm_num [Main.Highlighted]) (fun h => Option.noConfusion h)
  have h := claim_c7_raycast_at_most_one_hover
    ⟨none, [⟨0, 9/10, 1/2⟩, ⟨1, 9/10, 1/2⟩]⟩
    [[⟨5, false⟩, ⟨0, true⟩]] hInv
  exact ⟨hInv, h.2.1 _ _ rfl, h.1⟩

/-- C10: the energy-flow update preserves 0 ≤ progress < 1 for speeds in
[0.3, 0.7) with a nonempty orb list: each update adds speed * 0.008 to
progress; whenever the sum reaches 1 it resets to 0 and the particle is
retargeted at focusedOrbIndex when focusedOrbIndex ≥ 0 and otherwise at a
random index strictly below orbPositions.length; and createEnergyFlow
only assigns speeds in [0.3, 0.7). -/
theorem claim_c10_energy_flow_progress_invariant
    (orbPositions : List Vec3R) (time : ℝ) (focusedOrbIndex : ℤ) (rand : ℝ) (i : ℕ)
    (data : EnergyFlow.FlowParticle)
    (hne : orbPositions ≠ [])
    (hp0 : 0 ≤ data.progress) (hp1 : data.progress < 1)
    (hs0 : 3/10 ≤ data.speed) (hs1 : data.speed < 7/10)
    (hr0 : 0 ≤ rand) (hr1 : rand < 1) :
    (0 ≤ (EnergyFlow.updateFlowParticle orbPositions time focusedOrbIndex rand i data).progress ∧
      (EnergyFlow.updateFlowParticle orbPositions time focusedOrbIndex rand i data).progress < 1) ∧
    (data.progress + data.speed * (8/1000) < 1 →
      (EnergyFlow.updateFlowParticle orbPositions time focusedOrbIndex rand i data).progress =
        data.progress + data.speed * (8/1000) ∧
      (EnergyFlow.updateFlowParticle orbPositions time focusedOrbIndex rand i data).orbIndex =
        data.orbIndex) ∧
    (1 ≤ data.progress + data.speed * (8/1000) →
      (EnergyFlow.updateFlowParticle orbPositions time focusedOrbIndex rand i data).progress = 0 ∧
      (0 ≤ focusedOrbIndex →
        (EnergyFlow.updateFlowParticle orbPositions time focusedOrbIndex rand i data).orbIndex =
          focusedOrbIndex.toNat) ∧
      (focusedOrbIndex < 0 →
        (EnergyFlow.updateFlowParticle orbPositions time focusedOrbIndex rand i data).orbIndex <
          orbPositions.length)) ∧
    (∀ orbCount j (rnd : ℕ → ℝ), (∀ n, 0 ≤ rnd n ∧ rnd n < 1) →
      3/10 ≤ (EnergyFlow.mkFlowParticle orbCount rnd j).speed ∧
      (EnergyFlow.mkFlowParticle orbCount rnd j).speed < 7/10) := by
  have hlen : 0 < orbPositions.length := List.length_pos.2 hne
  have hfloor : focusedOrbIndex < 0 →
      (⌊rand * (orbPositions.length : ℝ)⌋).toNat < orbPositions.length := by
    intro _
    have hub : rand * (orbPositions.length : ℝ) < (orbPositions.length : ℝ) := by
      have : (0 : ℝ) < (orbPositions.length : ℝ) := by exact_mod_cast hlen
      nlinarith
    have h1 : ⌊rand * (orbPositions.length : ℝ)⌋ < (orbPositions.length : ℤ) := by
      rw [Int.floor_lt]
      exact_mod_cast hub
    have h2 : 0 ≤ ⌊rand * (orbPositions.length : ℝ)⌋ := by
      apply Int.floor_nonneg.2
      positivity
    omega
  have hprog_eq :
      (EnergyFlow.updateFlowParticle orbPositions time focusedOrbIndex rand i data).progress =
        if 1 ≤ data.progress + data.speed * (8/1000) then 0
        else data.progress + data.speed * (8/1000) := rfl
  have horb_eq :
      (EnergyFlow.updateFlowParticle orbPositions time focusedOrbIndex rand i data).orbIndex =
        if 1 ≤ data.progress + data.speed * (8/1000) then
          (if 0 ≤ focusedOrbIndex then focusedOrbIndex.toNat
           else (⌊rand * (orbPositions.length : ℝ)⌋).toNat)
        else data.orbIndex := rfl
  have hspeed_eq : ∀ (orbCount j : ℕ) (rnd : ℕ → ℝ),
      (EnergyFlow.mkFlowParticle orbCount rnd j).speed = 3/10 + rnd (4*j+2) * (4/10) :=
    fun _ _ _ => rfl
  refine ⟨?_, fun hlt => ?_, fun hge => ?_, fun orbCount j rnd hrange => ?_⟩
  · rw [hprog_eq]
    split_ifs with h
    · exact ⟨le_refl 0, by norm_num⟩
    · have hlt := not_le.1 h
      exact ⟨by nlinarith, hlt⟩
  · have hnr : ¬ (1 ≤ data.progress + data.speed * (8/1000)) := not_le.2 hlt
    rw [hprog_eq, horb_eq, if_neg hnr, if_neg hnr]
    exact ⟨rfl, rfl⟩
  · refine ⟨by rw [hprog_eq, if_pos hge], fun hfoc => ?_, fun hfoc => ?_⟩
    · rw [horb_eq, if_pos hge, if_pos hfoc]
    · rw [horb_eq, if_pos hge, if_neg (not_le.2 hfoc)]
      exact hfloor hfoc
  · rw [hspeed_eq]
    have h := hrange (4*j+2)
    constructor <;> nlinarith [h.1, h.2]

/-- Witness for C10: a concrete particle at progress 1/2 with speed 1/2
keeps its progress inside [0, 1). -/
theorem claim_c10_energy_flow_progress_invariant_witness :
    0 ≤ (EnergyFlow.updateFlowParticle [⟨6, 0, 0⟩] 0 (-1) (1/2) 0
      { orbIndex := 0, progress := 1/2, speed := 1/2, curve := 1/2, size := 1/10,
        posX := 0, posY := 0, posZ := 0, opacity := 6/10, scale := 1 }).progress ∧
    (EnergyFlow.updateFlowParticle [⟨6, 0, 0⟩] 0 (-1) (1/2) 0
      { orbIndex := 0, progress := 1/2, speed := 1/2, curve := 1/2, size := 1/10,
        posX := 0, posY := 0, posZ := 0, opacity := 6/10, scale := 1 }).progress < 1 :=
  (claim_c10_energy_flow_progress_invariant [⟨6, 0, 0⟩] 0 (-1) (1/2) 0
    { orbIndex := 0, progress := 1/2, speed := 1/2, curve := 1/2, size := 1/10,
      posX := 0, posY := 0, posZ := 0, opacity := 6/10, scale := 1 }
    (by simp) (by norm_num) (by norm_num) (by norm_num) (by norm_num)
    (by norm_num) (by norm_num)).1

end Portfolio
